import Mathlib

/-!
Shallow embedding of the order-payment saga coordinator of the
nestjs-microservices repository, and proofs about the claims C1-C10.

The embedding follows the TypeScript sources:
  * `ProductService`        (src/order-service/src/product/product.service.ts)
  * `OrderService`          (src/unnamed/part_006, first document: createOrder /
                             retryPayment with circuit breaker and DLQ)
  * `DLQService`            (src/unnamed/part_007)
  * `PaymentService`        (src/unnamed/part_012)
  * `CircuitBreakerService` (src/unnamed/part_004) — the state machine itself
                             lives in the third-party opossum library, so for
                             claim C8 it is modelled from the spec (see below).

Database repositories are embedded as lists; TypeORM `save` on a fetched
entity is a replace-by-primary-id; timestamps are `Nat` milliseconds.
Fallible TypeScript code (thrown exceptions) is embedded with `Except`.
A function that both mutates persistent state and may throw returns
`Except SvcError α × State`, so the state reached before a throw is kept,
exactly as a thrown JS exception leaves already-committed database writes
in place.

Two explicit inputs make the environment's nondeterminism visible:
  * `DispatchOutcome` — what `paymentCircuitBreaker.fire` did: resolved with a
    `PaymentResponseDto`, or threw an error with a message (circuit-open
    errors are recognised, as in the source, by the substring
    "Circuit breaker").
  * `midDeactivate` — whether an external actor set the product's `isActive`
    flag to false while the coordinator was awaiting the payment response
    (no repository code path does this; it models a direct DB update, the
    hypothesis of claim C9).
  * `DLQState.channelOk` — whether the RabbitMQ channel operations inside
    `DLQService.sendToDeadLetterQueue` succeed; when they do not, the
    service swallows the error (its own try/catch) and nothing happens.
-/

/-- Character-list prefix test (`a` is a prefix of `b`). -/
def charsLead : List Char → List Char → Bool
  | [], _ => true
  | _ :: _, [] => false
  | a :: as, b :: bs => a == b && charsLead as bs

/-- Character-list containment: `needle` occurs contiguously in the list. -/
def charsHave (needle : List Char) : List Char → Bool
  | [] => needle.isEmpty
  | c :: cs => charsLead needle (c :: cs) || charsHave needle cs

/-- JavaScript `hay.includes(needle)`. -/
def strContains (hay needle : String) : Bool :=
  charsHave needle.toList hay.toList

/-- JavaScript `s.startsWith(pre)` / glob "pre*". -/
def strStarts (s pre : String) : Bool :=
  charsLead pre.toList s.toList

/-- Order lifecycle statuses used by `OrderService` and `DLQService`. -/
inductive OrderStatus where
  | PENDING
  | PAYMENT_PROCESSING
  | PAYMENT_SUCCESS
  | PAYMENT_FAILED
  | PAYMENT_QUEUED_DLQ
deriving DecidableEq

/-- The status string as stored in the database / used in error messages. -/
def OrderStatus.str : OrderStatus → String
  | .PENDING => "PENDING"
  | .PAYMENT_PROCESSING => "PAYMENT_PROCESSING"
  | .PAYMENT_SUCCESS => "PAYMENT_SUCCESS"
  | .PAYMENT_FAILED => "PAYMENT_FAILED"
  | .PAYMENT_QUEUED_DLQ => "PAYMENT_QUEUED_DLQ"

/-- Payment outcome status, the TS union `'SUCCESS' | 'FAILED'`. -/
inductive PayStatus where
  | SUCCESS
  | FAILED
deriving DecidableEq

/-- Product entity (product.entity.ts): primary id, unique productCode,
price, stockQuantity, isActive. Monetary amounts are kept as `Nat`. -/
structure Product where
  id : String
  productCode : String
  name : String
  price : Nat
  stockQuantity : Nat
  isActive : Bool
deriving DecidableEq

/-- Order entity (order.entity.ts), the fields the coordinator touches. -/
structure Order where
  id : String
  productCode : String
  productName : String
  unitPrice : Nat
  quantity : Nat
  totalAmount : Nat
  customerId : String
  customerEmail : String
  status : OrderStatus
  paymentId : String
deriving DecidableEq

/-- CreateOrderDto. -/
structure CreateOrderDto where
  customerId : String
  customerEmail : String
  productCode : String
  quantity : Nat
deriving DecidableEq

/-- PaymentRequestDto. -/
structure PaymentRequestDto where
  orderId : String
  amount : Nat
  customerId : String
  customerEmail : String
deriving DecidableEq

/-- PaymentResponseDto. -/
structure PaymentResponseDto where
  orderId : String
  paymentId : String
  status : PayStatus
  message : String
  processedAt : Nat
deriving DecidableEq

/-- NestJS exception classes thrown by the embedded services. -/
inductive SvcError where
  | notFound (msg : String)
  | conflict (msg : String)
  | badRequest (msg : String)
  | plainError (msg : String)
deriving DecidableEq

/-- Decidable equality for `Except`, so that concrete runs can be checked
by `decide`. -/
instance {ε α : Type} [DecidableEq ε] [DecidableEq α] : DecidableEq (Except ε α) :=
  fun x y =>
    match x, y with
    | .ok a, .ok b =>
        if h : a = b then isTrue (by rw [h]) else
          isFalse (fun hc => by cases hc; exact h rfl)
    | .error a, .error b =>
        if h : a = b then isTrue (by rw [h]) else
          isFalse (fun hc => by cases hc; exact h rfl)
    | .ok _, .error _ => isFalse (fun hc => Except.noConfusion hc)
    | .error _, .ok _ => isFalse (fun hc => Except.noConfusion hc)

/-- The `where: { productCode, isActive: true }` clause of
ProductService.findByProductCode. -/
def activeMatch (code : String) (p : Product) : Bool :=
  p.productCode == code && p.isActive

/-- ProductService.findByProductCode: `findOne({ where: { productCode,
isActive: true } })`, throwing NotFoundException when absent or inactive. -/
def findByProductCode (repo : List Product) (code : String) :
    Except SvcError Product :=
  match repo.find? (activeMatch code) with
  | some p => .ok p
  | none =>
      .error (.notFound ("Product with code " ++ code ++ " not found or inactive"))

/-- TypeORM `productRepository.save(p)` on a fetched entity: replace the
row with primary key `p.id`. -/
def saveProduct (repo : List Product) (p : Product) : List Product :=
  repo.map (fun q => if q.id = p.id then p else q)

/-- ProductService.validateAndGetProduct. -/
def validateAndGetProduct (repo : List Product) (code : String) :
    Except SvcError Product :=
  match findByProductCode repo code with
  | .error e => .error e
  | .ok p =>
      if p.stockQuantity ≤ 0 then
        .error (.conflict ("Product " ++ code ++ " is out of stock"))
      else
        .ok p

/-- ProductService.decrementStock. -/
def decrementStock (repo : List Product) (code : String) (quantity : Nat) :
    Except SvcError (List Product) :=
  match findByProductCode repo code with
  | .error e => .error e
  | .ok p =>
      if p.stockQuantity < quantity then
        .error (.conflict ("Insufficient stock for product " ++ code ++
          ". Available: " ++ toString p.stockQuantity ++
          ", Requested: " ++ toString quantity))
      else
        .ok (saveProduct repo { p with stockQuantity := p.stockQuantity - quantity })

/-- ProductService.incrementStock. -/
def incrementStock (repo : List Product) (code : String) (quantity : Nat) :
    Except SvcError (List Product) :=
  match findByProductCode repo code with
  | .error e => .error e
  | .ok p =>
      .ok (saveProduct repo { p with stockQuantity := p.stockQuantity + quantity })

/-- An external direct-DB update flipping `isActive` to false for a product
code; no repository code path performs this (claim C9's hypothesis). -/
def deactivateProduct (repo : List Product) (code : String) : List Product :=
  repo.map (fun p => if p.productCode == code then { p with isActive := false } else p)

/-- Total available stock recorded for a product code. -/
def stockOf (repo : List Product) (code : String) : Nat :=
  (repo.filter (fun p => p.productCode == code)).foldr
    (fun p n => p.stockQuantity + n) 0

/-- TypeORM `orderRepository.save(o)`: update the row with `o.id`, or
insert it when absent. -/
def saveOrder (orders : List Order) (o : Order) : List Order :=
  if orders.any (fun x => x.id == o.id) then
    orders.map (fun x => if x.id == o.id then o else x)
  else
    orders ++ [o]

/-- DLQService's FailedPaymentMessage envelope. -/
structure FailedPaymentMessage where
  orderId : String
  paymentRequest : PaymentRequestDto
  failureReason : String
  attemptCount : Nat
  firstAttemptAt : Nat
  lastAttemptAt : Nat
deriving DecidableEq

/-- Durable queues owned by DLQService, plus whether the RabbitMQ channel
works (`channelOk = false` makes every channel operation throw, which
`sendToDeadLetterQueue` catches and swallows). -/
structure DLQState where
  dlq : List FailedPaymentMessage
  retryQueue : List FailedPaymentMessage
  channelOk : Bool
deriving DecidableEq

/-- DLQService.sendToDeadLetterQueue: build a fresh envelope (attemptCount
from the caller, both timestamps `new Date()` = now), push it to
`payment_dlq`, then set the order's status to PAYMENT_QUEUED_DLQ; the
whole body is inside try/catch, so on a channel failure nothing happens. -/
def sendToDeadLetterQueue (d : DLQState) (orders : List Order)
    (paymentRequest : PaymentRequestDto) (failureReason : String)
    (attemptCount : Nat) (now : Nat) : DLQState × List Order :=
  if d.channelOk then
    ({ d with dlq := d.dlq ++
        [{ orderId := paymentRequest.orderId
           paymentRequest := paymentRequest
           failureReason := failureReason
           attemptCount := attemptCount
           firstAttemptAt := now
           lastAttemptAt := now }] },
     orders.map (fun o =>
       if o.id == paymentRequest.orderId then { o with status := .PAYMENT_QUEUED_DLQ } else o))
  else
    (d, orders)

/-- DLQService.shouldRetryPayment: maxRetries 3, window 1 hour, and the two
`failureReason.includes(...)` tests on "Invalid" and "Insufficient". -/
def shouldRetryPayment (now : Nat) (m : FailedPaymentMessage) : Bool :=
  decide (m.attemptCount < 3) &&
  decide (now - m.firstAttemptAt < 3600000) &&
  !(strContains m.failureReason "Invalid") &&
  !(strContains m.failureReason "Insufficient")

/-- Verdict of the DLQ consumer on one envelope. -/
inductive DLQVerdict where
  | scheduledRetry (m : FailedPaymentMessage)
  | permanent
deriving DecidableEq

/-- One message step of DLQService.consumeDLQ: eligible envelopes go to the
retry queue through sendToRetryQueue (attemptCount incremented,
lastAttemptAt refreshed); ineligible ones are parked for manual
intervention. -/
def consumeDLQStep (now : Nat) (m : FailedPaymentMessage) : DLQVerdict :=
  if shouldRetryPayment now m then
    .scheduledRetry { m with attemptCount := m.attemptCount + 1, lastAttemptAt := now }
  else
    .permanent

/-- DLQService.reprocessDLQMessage: the body only writes a log line; the
source's own comment reads "Implementation would fetch from DLQ and requeue
to main queue", i.e. the requeue is not implemented. The embedded state is
therefore returned unchanged. -/
def reprocessDLQMessage (d : DLQState) (orderId : String) : DLQState :=
  d

/-- The eligibility predicate as the spec words it (refinement reference,
not source-derived): attemptCount < 3, within 1 hour, and the failure
reason neither matches "Invalid*" nor equals "Insufficient funds". -/
def specRetryEligible (now : Nat) (m : FailedPaymentMessage) : Bool :=
  decide (m.attemptCount < 3) &&
  decide (now - m.firstAttemptAt < 3600000) &&
  !(strStarts m.failureReason "Invalid") &&
  !(m.failureReason == "Insufficient funds")

/-- Payment entity (payment.entity.ts). -/
structure Payment where
  id : String
  orderId : String
  amount : Nat
  currency : String
  customerId : String
  customerEmail : String
  status : PayStatus
  failureReason : Option String
  transactionReference : Option String
deriving DecidableEq

/-- PaymentService.processPayment (src/unnamed/part_012): `isSuccess` is
hard-coded `true`; a new Payment row is always created and saved, with no
lookup of existing records for the order reference. `freshId` is the id
the store assigns to the new row, `txnRef` the generated `TXN-...` string. -/
def processPayment (repo : List Payment) (req : PaymentRequestDto)
    (freshId txnRef : String) (now : Nat) : PaymentResponseDto × List Payment :=
  let newPayment : Payment :=
    { id := freshId
      orderId := req.orderId
      amount := req.amount
      currency := "USD"
      customerId := req.customerId
      customerEmail := req.customerEmail
      status := .SUCCESS
      failureReason := none
      transactionReference := some txnRef }
  ({ orderId := req.orderId
     paymentId := freshId
     status := .SUCCESS
     message := "Payment of $" ++ toString req.amount ++ " processed successfully"
     processedAt := now },
   repo ++ [newPayment])

/-- Number of SUCCESS payment records stored for an order reference. -/
def countSuccess (repo : List Payment) (orderRef : String) : Nat :=
  (repo.filter (fun p => p.orderId == orderRef && p.status == PayStatus.SUCCESS)).length

/-- What `paymentCircuitBreaker.fire(paymentRequest)` did, as observed by
the coordinator: resolved with a response, or threw an error carrying a
message. -/
inductive DispatchOutcome where
  | resolved (resp : PaymentResponseDto)
  | thrown (msg : String)
deriving DecidableEq

/-- Persistent state the coordinator touches. -/
structure SysState where
  products : List Product
  orders : List Order
  dlqState : DLQState
deriving DecidableEq

/-- OrderService.createOrder (src/unnamed/part_006, lines 57-171).
`freshOrderId` is the id the store assigns to the new order row,
`dispatch` what the circuit-breaker call did, `midDeactivate` whether an
external DB update deactivated the product while the payment call was in
flight, `now` the clock. The returned state keeps all writes committed
before a propagated exception. -/
def createOrder (dto : CreateOrderDto) (freshOrderId : String)
    (dispatch : DispatchOutcome) (midDeactivate : Bool) (now : Nat)
    (st : SysState) : Except SvcError Order × SysState :=
  match validateAndGetProduct st.products dto.productCode with
  | .error e => (.error e, st)
  | .ok product =>
    if product.stockQuantity < dto.quantity then
      (.error (.badRequest ("Insufficient stock for product " ++ product.name ++
        ". Available: " ++ toString product.stockQuantity ++
        ", Requested: " ++ toString dto.quantity)), st)
    else
      let unitPrice := product.price
      let totalAmount := unitPrice * dto.quantity
      let order0 : Order :=
        { id := freshOrderId
          productCode := product.productCode
          productName := product.name
          unitPrice := unitPrice
          quantity := dto.quantity
          totalAmount := totalAmount
          customerId := dto.customerId
          customerEmail := dto.customerEmail
          status := .PENDING
          paymentId := "" }
      let orders1 := saveOrder st.orders order0
      match decrementStock st.products product.productCode dto.quantity with
      | .error e => (.error e, { st with orders := orders1 })
      | .ok products1 =>
        let order1 := { order0 with status := .PAYMENT_PROCESSING }
        let orders2 := saveOrder orders1 order1
        let paymentRequest : PaymentRequestDto :=
          { orderId := freshOrderId
            amount := totalAmount
            customerId := dto.customerId
            customerEmail := dto.customerEmail }
        let products2 :=
          if midDeactivate then deactivateProduct products1 product.productCode else products1
        let step :=
          match dispatch with
          | .resolved resp => (resp, st.dlqState, orders2)
          | .thrown msg =>
            if strContains msg "Circuit breaker" then
              let sent := sendToDeadLetterQueue st.dlqState orders2 paymentRequest
                "Circuit breaker is open - payment service unavailable" 1 now
              ({ orderId := freshOrderId
                 paymentId := ""
                 status := PayStatus.FAILED
                 message := "Payment service unavailable (circuit breaker open) - queued for retry"
                 processedAt := now }, sent.1, sent.2)
            else
              let sent := sendToDeadLetterQueue st.dlqState orders2 paymentRequest msg 1 now
              ({ orderId := freshOrderId
                 paymentId := ""
                 status := PayStatus.FAILED
                 message := "Critical payment error: " ++ msg
                 processedAt := now }, sent.1, sent.2)
        let paymentResponse := step.1
        let dlq2 := step.2.1
        let orders3 := step.2.2
        if paymentResponse.status = PayStatus.SUCCESS then
          let order2 := { order1 with status := .PAYMENT_SUCCESS, paymentId := paymentResponse.paymentId }
          (.ok order2, { products := products2, orders := saveOrder orders3 order2, dlqState := dlq2 })
        else
          let order2 := { order1 with status := .PAYMENT_FAILED }
          match incrementStock products2 product.productCode dto.quantity with
          | .error e => (.error e, { products := products2, orders := orders3, dlqState := dlq2 })
          | .ok products3 =>
            (.ok order2, { products := products3, orders := saveOrder orders3 order2, dlqState := dlq2 })

/-- The guard messages retryPayment throws for non-retryable statuses
(src/unnamed/part_006, lines 192-207); the FAILED case is never thrown. -/
def retryGuardMsg (orderId : String) : OrderStatus → String
  | .PAYMENT_SUCCESS =>
      "Cannot retry payment for order " ++ orderId ++ ": Payment already successful"
  | .PENDING =>
      "Cannot retry payment for order " ++ orderId ++ ": Payment is still being processed"
  | .PAYMENT_PROCESSING =>
      "Cannot retry payment for order " ++ orderId ++ ": Payment is currently in progress"
  | s =>
      "Cannot retry payment for order " ++ orderId ++ ": Invalid order status " ++ s.str

/-- OrderService.retryPayment (src/unnamed/part_006, lines 183-287). The
outer try/catch is embedded faithfully: a throw from the payment-failure
`incrementStock` lands in the catch block, which sets PAYMENT_FAILED on the
originally fetched order, attempts `incrementStock` once more inside its
own try/catch (swallowing a second failure), and saves. No dead-letter
submission happens anywhere on this path. -/
def retryPayment (orderId : String) (dispatch : DispatchOutcome)
    (midDeactivate : Bool) (now : Nat) (st : SysState) :
    Except SvcError Order × SysState :=
  match st.orders.find? (fun x => x.id == orderId) with
  | none => (.error (.plainError ("Order with ID " ++ orderId ++ " not found")), st)
  | some order =>
    if order.status = .PAYMENT_SUCCESS then
      (.error (.plainError ("Cannot retry payment for order " ++ orderId ++
        ": Payment already successful")), st)
    else if order.status = .PENDING then
      (.error (.plainError ("Cannot retry payment for order " ++ orderId ++
        ": Payment is still being processed")), st)
    else if order.status = .PAYMENT_PROCESSING then
      (.error (.plainError ("Cannot retry payment for order " ++ orderId ++
        ": Payment is currently in progress")), st)
    else if order.status ≠ .PAYMENT_FAILED then
      (.error (.plainError ("Cannot retry payment for order " ++ orderId ++
        ": Invalid order status " ++ order.status.str)), st)
    else
      match validateAndGetProduct st.products order.productCode with
      | .error e => (.error e, st)
      | .ok product =>
        if product.stockQuantity < order.quantity then
          (.error (.plainError ("Cannot retry payment: Insufficient stock for product " ++
            product.name ++ ". Available: " ++ toString product.stockQuantity)), st)
        else
          match decrementStock st.products order.productCode order.quantity with
          | .error _ =>
            let orderC := { order with status := OrderStatus.PAYMENT_FAILED }
            match incrementStock st.products order.productCode order.quantity with
            | .ok products3 =>
                (.ok orderC, { st with products := products3, orders := saveOrder st.orders orderC })
            | .error _ =>
                (.ok orderC, { st with orders := saveOrder st.orders orderC })
          | .ok products1 =>
            let order1 := { order with status := OrderStatus.PAYMENT_PROCESSING }
            let orders1 := saveOrder st.orders order1
            let products2 :=
              if midDeactivate then deactivateProduct products1 order.productCode else products1
            let paymentResponse :=
              match dispatch with
              | .resolved resp => resp
              | .thrown msg =>
                if strContains msg "Circuit breaker" then
                  { orderId := order.id
                    paymentId := ""
                    status := PayStatus.FAILED
                    message := "Payment service unavailable (circuit breaker open)"
                    processedAt := now }
                else
                  { orderId := order.id
                    paymentId := ""
                    status := PayStatus.FAILED
                    message := "Payment service unavailable during retry: " ++ msg
                    processedAt := now }
            if paymentResponse.status = PayStatus.SUCCESS then
              let order2 :=
                { order1 with status := OrderStatus.PAYMENT_SUCCESS, paymentId := paymentResponse.paymentId }
              (.ok order2, { st with products := products2, orders := saveOrder orders1 order2 })
            else
              let order2 := { order1 with status := OrderStatus.PAYMENT_FAILED }
              match incrementStock products2 order.productCode order.quantity with
              | .ok products3 =>
                  (.ok order2, { st with products := products3, orders := saveOrder orders1 order2 })
              | .error _ =>
                let orderC := { order with status := OrderStatus.PAYMENT_FAILED }
                match incrementStock products2 order.productCode order.quantity with
                | .ok products3 =>
                    (.ok orderC, { st with products := products3, orders := saveOrder orders1 orderC })
                | .error _ =>
                    (.ok orderC, { st with products := products2, orders := saveOrder orders1 orderC })

/-- Circuit-breaker states. Modelled from the spec: the state machine that
CircuitBreakerService.createBreaker configures is implemented inside the
third-party opossum package, whose source is not part of this repository;
only its configuration, event listeners and fallback are (src/unnamed/
part_004). States per spec section 4.2. -/
inductive BreakerState where
  | CLOSED
  | OPEN
  | HALF_OPEN
deriving DecidableEq

/-- Outcome of the wrapped dependency call. -/
inductive CallOutcome where
  | success
  | failure
deriving DecidableEq

/-- Modelled from the spec: circuit-breaker instance state (spec section 3,
"Circuit breaker state") plus the configuration that
CircuitBreakerService.createBreaker passes to opossum. -/
structure Breaker where
  state : BreakerState
  failures : Nat
  successes : Nat
  openedAt : Nat
  resetTimeout : Nat
  errorThresholdPercentage : Nat
  volumeThreshold : Nat
deriving DecidableEq

/-- Modelled from the spec: "OPEN: ... after reset-timeout elapses,
transition to HALF_OPEN". Clock progression applied before a call. -/
def breakerTick (b : Breaker) (now : Nat) : Breaker :=
  if b.state = BreakerState.OPEN ∧ b.openedAt + b.resetTimeout ≤ now then
    { b with state := BreakerState.HALF_OPEN }
  else
    b

/-- Modelled from the spec (section 4.2): one call through the breaker.
The Bool records whether the dependency was invoked. OPEN rejects
immediately without invoking it; HALF_OPEN lets exactly one trial call
through, closing (counters reset) on success and reopening on failure;
CLOSED records the outcome and opens once, within the rolling window, the
call volume reaches the threshold and the failure rate reaches the
error-threshold percentage. -/
def breakerFire (b : Breaker) (now : Nat) (res : CallOutcome) : Bool × Breaker :=
  match b.state with
  | .OPEN => (false, b)
  | .HALF_OPEN =>
    match res with
    | .success => (true, { b with state := BreakerState.CLOSED, failures := 0, successes := 0 })
    | .failure => (true, { b with state := BreakerState.OPEN, openedAt := now })
  | .CLOSED =>
    match res with
    | .success => (true, { b with successes := b.successes + 1 })
    | .failure =>
      let b' := { b with failures := b.failures + 1 }
      if b'.volumeThreshold ≤ b'.failures + b'.successes ∧
         b'.errorThresholdPercentage * (b'.failures + b'.successes) ≤ 100 * b'.failures then
        (true, { b' with state := BreakerState.OPEN, openedAt := now })
      else
        (true, b')

/-- The options OrderService.initializeCircuitBreaker passes for the
payment-service breaker: errorThresholdPercentage 50, resetTimeout 60000. -/
def paymentServiceBreaker (s : BreakerState) (openedAt : Nat) : Breaker :=
  { state := s
    failures := 0
    successes := 0
    openedAt := openedAt
    resetTimeout := 60000
    errorThresholdPercentage := 50
    volumeThreshold := 10 }

/-! ### Helper lemmas about the product store -/

theorem findByProductCode_find? {repo : List Product} {code : String} {p : Product}
    (h : findByProductCode repo code = .ok p) :
    repo.find? (activeMatch code) = some p := by
  unfold findByProductCode at h
  cases hf : repo.find? (activeMatch code) with
  | none => rw [hf] at h; cases h
  | some q => rw [hf] at h; cases h; rfl

theorem findByProductCode_fields {repo : List Product} {code : String} {p : Product}
    (h : findByProductCode repo code = .ok p) :
    p.productCode = code ∧ p.isActive = true := by
  have hm := List.find?_some (findByProductCode_find? h)
  unfold activeMatch at hm
  simp only [Bool.and_eq_true, beq_iff_eq] at hm
  exact hm

theorem findByProductCode_mem {repo : List Product} {code : String} {p : Product}
    (h : findByProductCode repo code = .ok p) : p ∈ repo :=
  List.mem_of_find?_eq_some (findByProductCode_find? h)

theorem find?_saveProduct {repo : List Product} {code : String} {p q : Product}
    (hf : repo.find? (activeMatch code) = some p)
    (hid : q.id = p.id) (hq : activeMatch code q = true) :
    (saveProduct repo q).find? (activeMatch code) = some q := by
  induction repo with
  | nil => simp at hf
  | cons r rs ih =>
    by_cases hr : activeMatch code r = true
    · rw [List.find?_cons_of_pos _ hr] at hf
      have hrp : r = p := by cases hf; rfl
      have : r.id = q.id := by rw [hrp, hid]
      simp only [saveProduct, List.map_cons, if_pos this]
      exact List.find?_cons_of_pos _ hq
    · rw [List.find?_cons_of_neg _ hr] at hf
      by_cases hri : r.id = q.id
      · simp only [saveProduct, List.map_cons, if_pos hri]
        exact List.find?_cons_of_pos _ hq
      · simp only [saveProduct, List.map_cons, if_neg hri]
        rw [List.find?_cons_of_neg _ hr]
        exact ih hf

theorem findByProductCode_saveProduct {repo : List Product} {code : String} {p q : Product}
    (h : findByProductCode repo code = .ok p)
    (hid : q.id = p.id) (hq : activeMatch code q = true) :
    findByProductCode (saveProduct repo q) code = .ok q := by
  unfold findByProductCode
  rw [find?_saveProduct (findByProductCode_find? h) hid hq]

theorem saveProduct_saveProduct {repo : List Product} {p q : Product}
    (h : q.id = p.id) : saveProduct (saveProduct repo q) p = saveProduct repo p := by
  unfold saveProduct
  rw [List.map_map]
  apply List.map_congr_left
  intro r _
  by_cases hr : r.id = q.id
  · simp only [Function.comp, if_pos hr, if_pos h, if_pos (hr.trans h)]
  · by_cases hrp : r.id = p.id
    · simp only [Function.comp, if_neg hr, if_pos hrp]
    · simp only [Function.comp, if_neg hr, if_neg hrp]

theorem saveProduct_self {repo : List Product} {p : Product}
    (hn : (repo.map Product.id).Nodup) (hp : p ∈ repo) :
    saveProduct repo p = repo := by
  unfold saveProduct
  have hinj := List.inj_on_of_nodup_map hn
  conv_rhs => rw [← List.map_id repo]
  apply List.map_congr_left
  intro r hr
  simp only [id_eq]
  by_cases hid : r.id = p.id
  · rw [if_pos hid]
    exact (hinj hr hp hid).symm
  · rw [if_neg hid]

theorem increment_after_decrement {repo repo1 : List Product} {code : String} {qty : Nat}
    (hn : (repo.map Product.id).Nodup)
    (hd : decrementStock repo code qty = .ok repo1) :
    incrementStock repo1 code qty = .ok repo := by
  unfold decrementStock at hd
  cases hfind : findByProductCode repo code with
  | error e =>
    simp only [hfind] at hd
    exact Except.noConfusion hd
  | ok p =>
    simp only [hfind] at hd
    by_cases hlt : p.stockQuantity < qty
    · rw [if_pos hlt] at hd; cases hd
    · rw [if_neg hlt] at hd
      have hrepo1 : repo1 = saveProduct repo { p with stockQuantity := p.stockQuantity - qty } := by
        cases hd; rfl
      have hfields := findByProductCode_fields hfind
      have hact : activeMatch code ({ p with stockQuantity := p.stockQuantity - qty } : Product) = true := by
        unfold activeMatch
        simp [hfields.1, hfields.2]
      have hfind1 : findByProductCode repo1 code =
          .ok ({ p with stockQuantity := p.stockQuantity - qty } : Product) := by
        rw [hrepo1]
        exact findByProductCode_saveProduct hfind rfl hact
      unfold incrementStock
      simp only [hfind1]
      have hback : ({ p with stockQuantity := p.stockQuantity - qty + qty } : Product) = p := by
        rw [Nat.sub_add_cancel (Nat.le_of_not_lt hlt)]
      rw [hback, hrepo1,
        saveProduct_saveProduct
          (q := { p with stockQuantity := p.stockQuantity - qty }) (p := p) rfl,
        saveProduct_self hn (findByProductCode_mem hfind)]

theorem validateAndGetProduct_ok {repo : List Product} {code : String} {p : Product}
    (h : validateAndGetProduct repo code = .ok p) :
    findByProductCode repo code = .ok p ∧ 0 < p.stockQuantity := by
  unfold validateAndGetProduct at h
  cases hfind : findByProductCode repo code with
  | error e =>
    simp only [hfind] at h
    exact Except.noConfusion h
  | ok q =>
    simp only [hfind] at h
    by_cases hz : q.stockQuantity ≤ 0
    · rw [if_pos hz] at h; cases h
    · rw [if_neg hz] at h
      cases h
      exact ⟨rfl, Nat.lt_of_not_le hz⟩

theorem decrementStock_ok {repo : List Product} {code : String} {p : Product} {qty : Nat}
    (hfind : findByProductCode repo code = .ok p) (hq : ¬p.stockQuantity < qty) :
    decrementStock repo code qty =
      .ok (saveProduct repo { p with stockQuantity := p.stockQuantity - qty }) := by
  unfold decrementStock
  simp only [hfind]
  rw [if_neg hq]

theorem deactivate_find?_none (repo : List Product) (code : String) :
    (deactivateProduct repo code).find? (activeMatch code) = none := by
  rw [List.find?_eq_none]
  intro x hx
  unfold deactivateProduct at hx
  rcases List.mem_map.mp hx with ⟨r, _, hr⟩
  by_cases hc : r.productCode == code
  · rw [if_pos hc] at hr
    rw [← hr]
    unfold activeMatch
    simp
  · rw [if_neg hc] at hr
    rw [← hr]
    unfold activeMatch
    simp only [Bool.and_eq_true]
    intro hcontra
    exact absurd hcontra.1 hc

theorem incrementStock_deactivated (repo : List Product) (code : String) (qty : Nat) :
    incrementStock (deactivateProduct repo code) code qty =
      .error (.notFound ("Product with code " ++ code ++ " not found or inactive")) := by
  unfold incrementStock findByProductCode
  rw [deactivate_find?_none]

/-! ### Concrete fixtures used by witnesses and counterexamples -/

/-- An active product with stock 5. -/
def prodA : Product :=
  { id := "p1", productCode := "P1", name := "Widget", price := 10,
    stockQuantity := 5, isActive := true }

/-- An active product whose stock is exhausted (0). -/
def prodZero : Product :=
  { id := "p2", productCode := "P2", name := "Gadget", price := 7,
    stockQuantity := 0, isActive := true }

/-- An inactive product. -/
def prodOff : Product :=
  { id := "p3", productCode := "P3", name := "Gizmo", price := 3,
    stockQuantity := 9, isActive := false }

/-- A healthy, empty dead-letter subsystem. -/
def dlqEmpty : DLQState := { dlq := [], retryQueue := [], channelOk := true }

/-- An order for 2 units of P1 that already failed payment. -/
def orderFailed : Order :=
  { id := "o1", productCode := "P1", productName := "Widget", unitPrice := 10,
    quantity := 2, totalAmount := 20, customerId := "c1",
    customerEmail := "c1@mail", status := .PAYMENT_FAILED, paymentId := "" }

/-- System state: product P1 (stock 5) and the failed order o1. -/
def stA : SysState :=
  { products := [prodA], orders := [orderFailed], dlqState := dlqEmpty }

/-- A remote decline: the payment service resolved with status FAILED. -/
def respDecline : PaymentResponseDto :=
  { orderId := "o1", paymentId := "", status := .FAILED,
    message := "Payment failed: Card declined", processedAt := 0 }

/-- A successful remote payment response. -/
def respOk : PaymentResponseDto :=
  { orderId := "o1", paymentId := "pay-9", status := .SUCCESS,
    message := "Payment of $20 processed successfully", processedAt := 0 }

/-- A create-order request for 2 units of P1. -/
def dtoA : CreateOrderDto :=
  { customerId := "c1", customerEmail := "c1@mail", productCode := "P1", quantity := 2 }

/-! ### Shape abbreviations for the createOrder run -/

/-- The order record createOrder builds for product `p` (unitPrice is the
product price, totalAmount = price × quantity), at a given status. -/
def coOrder (dto : CreateOrderDto) (fid : String) (p : Product)
    (s : OrderStatus) (payId : String) : Order :=
  { id := fid
    productCode := p.productCode
    productName := p.name
    unitPrice := p.price
    quantity := dto.quantity
    totalAmount := p.price * dto.quantity
    customerId := dto.customerId
    customerEmail := dto.customerEmail
    status := s
    paymentId := payId }

/-- The payment request createOrder dispatches. -/
def coRequest (dto : CreateOrderDto) (fid : String) (p : Product) : PaymentRequestDto :=
  { orderId := fid
    amount := p.price * dto.quantity
    customerId := dto.customerId
    customerEmail := dto.customerEmail }

/-- The failure reason createOrder hands to the Dead Letter Router for a
thrown dispatch error: circuit-open errors (recognised by the substring
"Circuit breaker") are reworded, transport errors keep their message. -/
def classifyThrown (msg : String) : String :=
  if strContains msg "Circuit breaker" then
    "Circuit breaker is open - payment service unavailable"
  else
    msg

/-- Order store after the PENDING save and the PAYMENT_PROCESSING save. -/
def coOrdersAfterDispatch (dto : CreateOrderDto) (fid : String) (p : Product)
    (orders : List Order) : List Order :=
  saveOrder (saveOrder orders (coOrder dto fid p .PENDING ""))
    (coOrder dto fid p .PAYMENT_PROCESSING "")

/-! ### Evaluation lemmas for createOrder -/

theorem createOrder_error_eq {dto : CreateOrderDto} {fid : String}
    {d : DispatchOutcome} {mid : Bool} {now : Nat} {st : SysState} {e : SvcError}
    (hv : validateAndGetProduct st.products dto.productCode = .error e) :
    createOrder dto fid d mid now st = (.error e, st) := by
  unfold createOrder
  simp only [hv]

theorem createOrder_badRequest_eq {dto : CreateOrderDto} {fid : String}
    {d : DispatchOutcome} {mid : Bool} {now : Nat} {st : SysState} {p : Product}
    (hv : validateAndGetProduct st.products dto.productCode = .ok p)
    (hq : p.stockQuantity < dto.quantity) :
    createOrder dto fid d mid now st =
      (.error (.badRequest ("Insufficient stock for product " ++ p.name ++
        ". Available: " ++ toString p.stockQuantity ++
        ", Requested: " ++ toString dto.quantity)), st) := by
  unfold createOrder
  simp only [hv, if_pos hq]

theorem createOrder_thrown_eq {dto : CreateOrderDto} {fid msg : String}
    {now : Nat} {st : SysState} {p : Product}
    (hn : (st.products.map Product.id).Nodup)
    (hv : validateAndGetProduct st.products dto.productCode = .ok p)
    (hq : ¬p.stockQuantity < dto.quantity) :
    createOrder dto fid (.thrown msg) false now st =
      (.ok (coOrder dto fid p .PAYMENT_FAILED ""),
       { products := st.products
         orders := saveOrder
           (sendToDeadLetterQueue st.dlqState (coOrdersAfterDispatch dto fid p st.orders)
             (coRequest dto fid p) (classifyThrown msg) 1 now).2
           (coOrder dto fid p .PAYMENT_FAILED "")
         dlqState := (sendToDeadLetterQueue st.dlqState
           (coOrdersAfterDispatch dto fid p st.orders)
           (coRequest dto fid p) (classifyThrown msg) 1 now).1 }) := by
  have hfind := (validateAndGetProduct_ok hv).1
  have hfind' : findByProductCode st.products p.productCode = .ok p := by
    rw [(findByProductCode_fields hfind).1]
    exact hfind
  have hdec := decrementStock_ok hfind' hq
  have hinc := increment_after_decrement hn hdec
  unfold createOrder
  by_cases hcb : strContains msg "Circuit breaker" = true
  · simp [hv, if_neg hq, hdec, hinc, hcb, classifyThrown, coOrder, coRequest,
      coOrdersAfterDispatch]
  · simp [hv, if_neg hq, hdec, hinc, hcb, classifyThrown, coOrder, coRequest,
      coOrdersAfterDispatch]

theorem createOrder_resolved_eq {dto : CreateOrderDto} {fid : String}
    {resp : PaymentResponseDto} {now : Nat} {st : SysState} {p : Product}
    (hn : (st.products.map Product.id).Nodup)
    (hv : validateAndGetProduct st.products dto.productCode = .ok p)
    (hq : ¬p.stockQuantity < dto.quantity) :
    createOrder dto fid (.resolved resp) false now st =
      if resp.status = PayStatus.SUCCESS then
        (.ok (coOrder dto fid p .PAYMENT_SUCCESS resp.paymentId),
         { products := saveProduct st.products
             { p with stockQuantity := p.stockQuantity - dto.quantity }
           orders := saveOrder (coOrdersAfterDispatch dto fid p st.orders)
             (coOrder dto fid p .PAYMENT_SUCCESS resp.paymentId)
           dlqState := st.dlqState })
      else
        (.ok (coOrder dto fid p .PAYMENT_FAILED ""),
         { products := st.products
           orders := saveOrder (coOrdersAfterDispatch dto fid p st.orders)
             (coOrder dto fid p .PAYMENT_FAILED "")
           dlqState := st.dlqState }) := by
  have hfind := (validateAndGetProduct_ok hv).1
  have hfind' : findByProductCode st.products p.productCode = .ok p := by
    rw [(findByProductCode_fields hfind).1]
    exact hfind
  have hdec := decrementStock_ok hfind' hq
  have hinc := increment_after_decrement hn hdec
  unfold createOrder
  by_cases hr : resp.status = PayStatus.SUCCESS
  · simp [hv, if_neg hq, hdec, hr, coOrder, coOrdersAfterDispatch]
  · simp [hv, if_neg hq, hdec, hinc, hr, coOrder, coOrdersAfterDispatch]

/-! ### Evaluation lemmas for retryPayment -/

theorem retryPayment_notFound_eq {orderId : String} {d : DispatchOutcome}
    {mid : Bool} {now : Nat} {st : SysState}
    (hfind : st.orders.find? (fun x => x.id == orderId) = none) :
    retryPayment orderId d mid now st =
      (.error (.plainError ("Order with ID " ++ orderId ++ " not found")), st) := by
  unfold retryPayment
  simp only [hfind]

theorem retryPayment_guard_eq {orderId : String} {d : DispatchOutcome}
    {mid : Bool} {now : Nat} {st : SysState} {order : Order}
    (hfind : st.orders.find? (fun x => x.id == orderId) = some order)
    (hs : order.status ≠ .PAYMENT_FAILED) :
    retryPayment orderId d mid now st =
      (.error (.plainError (retryGuardMsg orderId order.status)), st) := by
  unfold retryPayment
  simp only [hfind]
  cases hst : order.status with
  | PENDING => simp [hst, retryGuardMsg]
  | PAYMENT_PROCESSING => simp [hst, retryGuardMsg]
  | PAYMENT_SUCCESS => simp [hst, retryGuardMsg]
  | PAYMENT_FAILED => exact absurd hst hs
  | PAYMENT_QUEUED_DLQ => simp [hst, retryGuardMsg, OrderStatus.str]

theorem retryPayment_vError_eq {orderId : String} {d : DispatchOutcome}
    {mid : Bool} {now : Nat} {st : SysState} {order : Order} {e : SvcError}
    (hfind : st.orders.find? (fun x => x.id == orderId) = some order)
    (hst : order.status = .PAYMENT_FAILED)
    (hv : validateAndGetProduct st.products order.productCode = .error e) :
    retryPayment orderId d mid now st = (.error e, st) := by
  unfold retryPayment
  simp [hfind, hst, hv]

theorem retryPayment_insufficient_eq {orderId : String} {d : DispatchOutcome}
    {mid : Bool} {now : Nat} {st : SysState} {order : Order} {p : Product}
    (hfind : st.orders.find? (fun x => x.id == orderId) = some order)
    (hst : order.status = .PAYMENT_FAILED)
    (hv : validateAndGetProduct st.products order.productCode = .ok p)
    (hq : p.stockQuantity < order.quantity) :
    retryPayment orderId d mid now st =
      (.error (.plainError ("Cannot retry payment: Insufficient stock for product " ++
        p.name ++ ". Available: " ++ toString p.stockQuantity)), st) := by
  unfold retryPayment
  simp [hfind, hst, hv, hq]

theorem retryPayment_resolved_eq {orderId : String} {resp : PaymentResponseDto}
    {now : Nat} {st : SysState} {order : Order} {p : Product}
    (hn : (st.products.map Product.id).Nodup)
    (hfind : st.orders.find? (fun x => x.id == orderId) = some order)
    (hst : order.status = .PAYMENT_FAILED)
    (hv : validateAndGetProduct st.products order.productCode = .ok p)
    (hq : ¬p.stockQuantity < order.quantity) :
    retryPayment orderId (.resolved resp) false now st =
      if resp.status = PayStatus.SUCCESS then
        (.ok { order with status := .PAYMENT_SUCCESS, paymentId := resp.paymentId },
         { st with
             products := saveProduct st.products
               { p with stockQuantity := p.stockQuantity - order.quantity }
             orders := saveOrder (saveOrder st.orders { order with status := .PAYMENT_PROCESSING })
               { order with status := .PAYMENT_SUCCESS, paymentId := resp.paymentId } })
      else
        (.ok { order with status := .PAYMENT_FAILED },
         { st with
             orders := saveOrder (saveOrder st.orders { order with status := .PAYMENT_PROCESSING })
               { order with status := .PAYMENT_FAILED } }) := by
  have hfindP := (validateAndGetProduct_ok hv).1
  have hdec := decrementStock_ok hfindP hq
  have hinc := increment_after_decrement hn hdec
  unfold retryPayment
  by_cases hr : resp.status = PayStatus.SUCCESS
  · simp [hfind, hst, hv, hq, hdec, hr]
  · simp [hfind, hst, hv, hq, hdec, hinc, hr]

theorem retryPayment_thrown_eq {orderId msg : String}
    {now : Nat} {st : SysState} {order : Order} {p : Product}
    (hn : (st.products.map Product.id).Nodup)
    (hfind : st.orders.find? (fun x => x.id == orderId) = some order)
    (hst : order.status = .PAYMENT_FAILED)
    (hv : validateAndGetProduct st.products order.productCode = .ok p)
    (hq : ¬p.stockQuantity < order.quantity) :
    retryPayment orderId (.thrown msg) false now st =
      (.ok { order with status := .PAYMENT_FAILED },
       { st with
           orders := saveOrder (saveOrder st.orders { order with status := .PAYMENT_PROCESSING })
             { order with status := .PAYMENT_FAILED } }) := by
  have hfindP := (validateAndGetProduct_ok hv).1
  have hdec := decrementStock_ok hfindP hq
  have hinc := increment_after_decrement hn hdec
  unfold retryPayment
  by_cases hcb : strContains msg "Circuit breaker" = true
  · simp [hfind, hst, hv, hq, hdec, hinc, hcb]
  · simp [hfind, hst, hv, hq, hdec, hinc, hcb]

theorem retryPayment_deactivated_eq {orderId : String} {resp : PaymentResponseDto}
    {now : Nat} {st : SysState} {order : Order} {p : Product}
    (hfind : st.orders.find? (fun x => x.id == orderId) = some order)
    (hst : order.status = .PAYMENT_FAILED)
    (hv : validateAndGetProduct st.products order.productCode = .ok p)
    (hq : ¬p.stockQuantity < order.quantity)
    (hr : resp.status = PayStatus.FAILED) :
    retryPayment orderId (.resolved resp) true now st =
      (.ok { order with status := .PAYMENT_FAILED },
       { st with
           products := deactivateProduct
             (saveProduct st.products { p with stockQuantity := p.stockQuantity - order.quantity })
             order.productCode
           orders := saveOrder (saveOrder st.orders { order with status := .PAYMENT_PROCESSING })
             { order with status := .PAYMENT_FAILED } }) := by
  have hfindP := (validateAndGetProduct_ok hv).1
  have hdec := decrementStock_ok hfindP hq
  unfold retryPayment
  simp [hfind, hst, hv, hq, hdec, hr, incrementStock_deactivated]

/-! ### Further fixtures for the claims -/

/-- A stored SUCCESS payment record for order-1. -/
def paySuccess0 : Payment :=
  { id := "pay-0", orderId := "order-1", amount := 20, currency := "USD",
    customerId := "c1", customerEmail := "c1@mail", status := .SUCCESS,
    failureReason := none, transactionReference := some "TXN-0" }

/-- A payment request for order-1 (a redelivery of the one already paid). -/
def reqOrder1 : PaymentRequestDto :=
  { orderId := "order-1", amount := 20, customerId := "c1", customerEmail := "c1@mail" }

/-- State whose only product has zero stock. -/
def stZero : SysState := { products := [prodZero], orders := [], dlqState := dlqEmpty }

/-- A request for 5 units of the zero-stock product. -/
def dtoZero : CreateOrderDto :=
  { customerId := "c1", customerEmail := "c1@mail", productCode := "P2", quantity := 5 }

/-- An active product with stock 2 (spec Scenario B). -/
def prodTwo : Product :=
  { id := "p4", productCode := "P4", name := "Thing", price := 4,
    stockQuantity := 2, isActive := true }

/-- State for Scenario B: stock 2. -/
def stTwo : SysState := { products := [prodTwo], orders := [], dlqState := dlqEmpty }

/-- Scenario B request: quantity 5 against stock 2. -/
def dtoTwo : CreateOrderDto :=
  { customerId := "c1", customerEmail := "c1@mail", productCode := "P4", quantity := 5 }

/-- stA with the order already in PAYMENT_SUCCESS. -/
def stSucc : SysState :=
  { stA with orders := [{ orderFailed with status := .PAYMENT_SUCCESS }] }

/-- stA with the order still PENDING. -/
def stPend : SysState :=
  { stA with orders := [{ orderFailed with status := .PENDING }] }

/-- A dead-letter envelope whose reason is "Insufficient stock": not equal
to "Insufficient funds" and not matching "Invalid*". -/
def msgIns : FailedPaymentMessage :=
  { orderId := "x"
    paymentRequest := { orderId := "x", amount := 1, customerId := "c", customerEmail := "e" }
    failureReason := "Insufficient stock"
    attemptCount := 1
    firstAttemptAt := 0
    lastAttemptAt := 0 }

/-- A dead-letter envelope declined for insufficient funds. -/
def msgFunds : FailedPaymentMessage :=
  { msgIns with orderId := "y", failureReason := "Insufficient funds" }

/-- A dead-letter envelope with a transient transport reason. -/
def msgTransient : FailedPaymentMessage :=
  { msgIns with orderId := "z", failureReason := "ECONNREFUSED" }

/-! ### Claim C1 -/

/-- C1 counterexample: with the order o1 in PAYMENT_FAILED and product P1 at
stock 5, a retryPayment whose dispatch resolves FAILED while the product is
deactivated mid-flight ends with the order persisted as PAYMENT_FAILED yet
only 3 of the 5 units on record: the reserved quantity 2 was never
restored, because the compensating incrementStock threw NotFound and
retryPayment's catch block only logs that failure. This refutes the claim
that final status PAYMENT_FAILED implies a net-zero stock effect. -/
theorem c1_counterexample :
    (retryPayment "o1" (DispatchOutcome.resolved respDecline) true 0 stA).1 =
      Except.ok { orderFailed with status := OrderStatus.PAYMENT_FAILED } ∧
    ((retryPayment "o1" (DispatchOutcome.resolved respDecline) true 0 stA).2.orders.find?
      (fun x => x.id == "o1")) = some { orderFailed with status := OrderStatus.PAYMENT_FAILED } ∧
    stockOf stA.products "P1" = 5 ∧
    stockOf (retryPayment "o1" (DispatchOutcome.resolved respDecline) true 0 stA).2.products "P1" = 3 := by
  decide

/-- C1 (amended): on every failure path of createOrder and retryPayment the
coordinator attempts full stock compensation — regardless of whether the
dead-letter submission or other secondary bookkeeping succeeds (the
dead-letter channel state is arbitrary here) — and when the product has
not been deactivated mid-flight the compensation succeeds, so the product
store returns exactly to its initial contents; stock is only consumed when
the returned order has status PAYMENT_SUCCESS. -/
theorem c1_stock_compensation (dto : CreateOrderDto) (fid orderId : String)
    (d1 d2 : DispatchOutcome) (now1 now2 : Nat) (st1 st2 : SysState)
    (hn1 : (st1.products.map Product.id).Nodup)
    (hn2 : (st2.products.map Product.id).Nodup) :
    ((createOrder dto fid d1 false now1 st1).2.products = st1.products ∨
      ∃ o, (createOrder dto fid d1 false now1 st1).1 = .ok o ∧ o.status = .PAYMENT_SUCCESS) ∧
    ((retryPayment orderId d2 false now2 st2).2.products = st2.products ∨
      ∃ o, (retryPayment orderId d2 false now2 st2).1 = .ok o ∧ o.status = .PAYMENT_SUCCESS) := by
  constructor
  · cases hv : validateAndGetProduct st1.products dto.productCode with
    | error e =>
      left
      rw [createOrder_error_eq hv]
    | ok p =>
      by_cases hq : p.stockQuantity < dto.quantity
      · left
        rw [createOrder_badRequest_eq hv hq]
      · cases d1 with
        | thrown msg =>
          left
          rw [createOrder_thrown_eq hn1 hv hq]
        | resolved resp =>
          rw [createOrder_resolved_eq hn1 hv hq]
          by_cases hr : resp.status = PayStatus.SUCCESS
          · right
            rw [if_pos hr]
            exact ⟨_, rfl, rfl⟩
          · left
            rw [if_neg hr]
  · cases hfind : st2.orders.find? (fun x => x.id == orderId) with
    | none =>
      left
      rw [retryPayment_notFound_eq hfind]
    | some order =>
      by_cases hst : order.status = .PAYMENT_FAILED
      · cases hv : validateAndGetProduct st2.products order.productCode with
        | error e =>
          left
          rw [retryPayment_vError_eq hfind hst hv]
        | ok p =>
          by_cases hq : p.stockQuantity < order.quantity
          · left
            rw [retryPayment_insufficient_eq hfind hst hv hq]
          · cases d2 with
            | thrown msg =>
              left
              rw [retryPayment_thrown_eq hn2 hfind hst hv hq]
            | resolved resp =>
              rw [retryPayment_resolved_eq hn2 hfind hst hv hq]
              by_cases hr : resp.status = PayStatus.SUCCESS
              · right
                rw [if_pos hr]
                exact ⟨_, rfl, rfl⟩
              · left
                rw [if_neg hr]
      · left
        rw [retryPayment_guard_eq hfind hst]

/-- C1 witness: the amended theorem applied to the concrete state stA with a
declined payment on both paths. -/
theorem c1_stock_compensation_witness :
    ((createOrder dtoA "o2" (DispatchOutcome.resolved respDecline) false 0 stA).2.products = stA.products ∨
      ∃ o, (createOrder dtoA "o2" (DispatchOutcome.resolved respDecline) false 0 stA).1 = .ok o ∧
        o.status = .PAYMENT_SUCCESS) ∧
    ((retryPayment "o1" (DispatchOutcome.resolved respDecline) false 0 stA).2.products = stA.products ∨
      ∃ o, (retryPayment "o1" (DispatchOutcome.resolved respDecline) false 0 stA).1 = .ok o ∧
        o.status = .PAYMENT_SUCCESS) :=
  c1_stock_compensation dtoA "o2" "o1" (DispatchOutcome.resolved respDecline)
    (DispatchOutcome.resolved respDecline) 0 0 stA stA (by decide) (by decide)

/-! ### Claim C2 -/

/-- C2 counterexample: the payment store already holds a SUCCESS record for
order-1; processing a request for order-1 again creates a second SUCCESS
record and returns the id of the new record, not the original result.
PaymentService.processPayment has no idempotency lookup at all. -/
theorem c2_counterexample :
    countSuccess [paySuccess0] "order-1" = 1 ∧
    countSuccess (processPayment [paySuccess0] reqOrder1 "pay-1" "TXN-1" 5).2 "order-1" = 2 ∧
    (processPayment [paySuccess0] reqOrder1 "pay-1" "TXN-1" 5).1.paymentId = "pay-1" := by
  decide

/-- C2 (amended): processPayment never consults existing records: every
call appends exactly one new record — always with status SUCCESS, since
isSuccess is hard-coded true — so the SUCCESS count for the order
reference grows by one on every (re)delivery, and the response carries the
freshly assigned payment id. -/
theorem c2_no_idempotency (repo : List Payment) (req : PaymentRequestDto)
    (freshId txnRef : String) (now : Nat) :
    countSuccess (processPayment repo req freshId txnRef now).2 req.orderId =
      countSuccess repo req.orderId + 1 ∧
    (processPayment repo req freshId txnRef now).1.paymentId = freshId ∧
    (processPayment repo req freshId txnRef now).1.status = PayStatus.SUCCESS := by
  refine ⟨?_, rfl, rfl⟩
  unfold processPayment countSuccess
  simp [List.filter_append]

/-! ### Claim C3 -/

/-- C3 counterexample: a remote decline — the dispatch resolves with status
FAILED — restores the stock and sets PAYMENT_FAILED, but submits nothing to
the Dead Letter Router (the dead-letter queue stays empty): dead-letter
submission happens only in createOrder's catch block, which a resolved
FAILED response never enters. -/
theorem c3_counterexample :
    (createOrder dtoA "o2" (DispatchOutcome.resolved respDecline) false 0 stA).1 =
      .ok (coOrder dtoA "o2" prodA .PAYMENT_FAILED "") ∧
    (createOrder dtoA "o2" (DispatchOutcome.resolved respDecline) false 0 stA).2.products = stA.products ∧
    stA.dlqState.dlq = [] ∧
    (createOrder dtoA "o2" (DispatchOutcome.resolved respDecline) false 0 stA).2.dlqState.dlq = [] := by
  decide

/-- C3 (amended): in createOrder, a thrown dispatch error — CircuitOpenError
(message containing "Circuit breaker") or transport error/timeout — leads
to restored stock, final status PAYMENT_FAILED, and submission of the
original payment request with a classified failure reason to the Dead
Letter Router (when the dead-letter channel works); a remote decline (a
response that resolved with status FAILED) also restores stock and sets
PAYMENT_FAILED but performs no dead-letter submission at all. -/
theorem c3_failure_handling (dto : CreateOrderDto) (fid msg : String)
    (resp : PaymentResponseDto) (now : Nat) (st : SysState) (p : Product)
    (hn : (st.products.map Product.id).Nodup)
    (hv : validateAndGetProduct st.products dto.productCode = .ok p)
    (hq : ¬p.stockQuantity < dto.quantity)
    (hch : st.dlqState.channelOk = true)
    (hr : resp.status = PayStatus.FAILED) :
    ((createOrder dto fid (.thrown msg) false now st).1 =
        .ok (coOrder dto fid p .PAYMENT_FAILED "") ∧
     (createOrder dto fid (.thrown msg) false now st).2.products = st.products ∧
     (createOrder dto fid (.thrown msg) false now st).2.dlqState.dlq =
       st.dlqState.dlq ++
         [{ orderId := fid, paymentRequest := coRequest dto fid p,
            failureReason := classifyThrown msg, attemptCount := 1,
            firstAttemptAt := now, lastAttemptAt := now }]) ∧
    ((createOrder dto fid (.resolved resp) false now st).1 =
        .ok (coOrder dto fid p .PAYMENT_FAILED "") ∧
     (createOrder dto fid (.resolved resp) false now st).2.products = st.products ∧
     (createOrder dto fid (.resolved resp) false now st).2.dlqState = st.dlqState) := by
  have h1 := @createOrder_thrown_eq dto fid msg now st p hn hv hq
  have h2 := @createOrder_resolved_eq dto fid resp now st p hn hv hq
  have hrn : ¬resp.status = PayStatus.SUCCESS := by
    rw [hr]
    exact fun hc => PayStatus.noConfusion hc
  rw [if_neg hrn] at h2
  refine ⟨⟨by rw [h1], by rw [h1], ?_⟩, by rw [h2], by rw [h2], by rw [h2]⟩
  rw [h1]
  simp [sendToDeadLetterQueue, hch, coRequest]

/-- C3 witness: the amended theorem at state stA, with a transport-error
throw and a declined response. -/
theorem c3_failure_handling_witness :
    ((createOrder dtoA "o2" (.thrown "ECONNREFUSED") false 7 stA).1 =
        .ok (coOrder dtoA "o2" prodA .PAYMENT_FAILED "") ∧
     (createOrder dtoA "o2" (.thrown "ECONNREFUSED") false 7 stA).2.products = stA.products ∧
     (createOrder dtoA "o2" (.thrown "ECONNREFUSED") false 7 stA).2.dlqState.dlq =
       stA.dlqState.dlq ++
         [{ orderId := "o2", paymentRequest := coRequest dtoA "o2" prodA,
            failureReason := classifyThrown "ECONNREFUSED", attemptCount := 1,
            firstAttemptAt := 7, lastAttemptAt := 7 }]) ∧
    ((createOrder dtoA "o2" (.resolved respDecline) false 7 stA).1 =
        .ok (coOrder dtoA "o2" prodA .PAYMENT_FAILED "") ∧
     (createOrder dtoA "o2" (.resolved respDecline) false 7 stA).2.products = stA.products ∧
     (createOrder dtoA "o2" (.resolved respDecline) false 7 stA).2.dlqState = stA.dlqState) :=
  c3_failure_handling dtoA "o2" "ECONNREFUSED" respDecline 7 stA prodA
    (by decide) (by decide) (by decide) (by decide) (by decide)

/-! ### Claim C4 -/

/-- C4 counterexample: with the product's stock at 0 (and quantity 5
requested, exceeding it), createOrder fails — with no side effects — but
with ConflictException "Product P2 is out of stock" thrown by
validateAndGetProduct, not with the BadRequest insufficient-stock error the
claim names; the insufficient-stock branch is never reached. -/
theorem c4_counterexample :
    prodZero.stockQuantity < dtoZero.quantity ∧
    (createOrder dtoZero "o9" (.resolved respOk) false 0 stZero).1 =
      .error (.conflict "Product P2 is out of stock") ∧
    (createOrder dtoZero "o9" (.resolved respOk) false 0 stZero).1 ≠
      .error (.badRequest
        "Insufficient stock for product Gadget. Available: 0, Requested: 5") ∧
    (createOrder dtoZero "o9" (.resolved respOk) false 0 stZero).2 = stZero := by
  decide

/-- C4 (amended): when the requested quantity exceeds the product's
available stock, createOrder fails with no side effects (the returned
state is the input state, so stock is unchanged and no order row of any
status is persisted); the error is the BadRequest insufficient-stock error
when the stock is positive, and the out-of-stock Conflict from
validateAndGetProduct when the stock is zero. -/
theorem c4_insufficient_stock (dto : CreateOrderDto) (fid : String)
    (d : DispatchOutcome) (mid : Bool) (now : Nat) (st : SysState) (p : Product)
    (hfind : findByProductCode st.products dto.productCode = .ok p)
    (hlt : p.stockQuantity < dto.quantity) :
    createOrder dto fid d mid now st =
      (.error (if 0 < p.stockQuantity then
          .badRequest ("Insufficient stock for product " ++ p.name ++
            ". Available: " ++ toString p.stockQuantity ++
            ", Requested: " ++ toString dto.quantity)
        else
          .conflict ("Product " ++ dto.productCode ++ " is out of stock")), st) := by
  by_cases hz : p.stockQuantity ≤ 0
  · have hv : validateAndGetProduct st.products dto.productCode =
        .error (.conflict ("Product " ++ dto.productCode ++ " is out of stock")) := by
      unfold validateAndGetProduct
      simp [hfind, hz]
    rw [createOrder_error_eq hv, if_neg (by omega)]
  · have hv : validateAndGetProduct st.products dto.productCode = .ok p := by
      unfold validateAndGetProduct
      simp [hfind, hz]
    rw [createOrder_badRequest_eq hv hlt, if_pos (by omega)]

/-- C4 witness: spec Scenario B — stock 2, quantity 5 — through the amended
theorem: the BadRequest insufficient-stock error, state unchanged. -/
theorem c4_insufficient_stock_witness :
    createOrder dtoTwo "o8" (.resolved respOk) false 0 stTwo =
      (.error (if 0 < prodTwo.stockQuantity then
          .badRequest ("Insufficient stock for product " ++ prodTwo.name ++
            ". Available: " ++ toString prodTwo.stockQuantity ++
            ", Requested: " ++ toString dtoTwo.quantity)
        else
          .conflict ("Product " ++ dtoTwo.productCode ++ " is out of stock")), stTwo) :=
  c4_insufficient_stock dtoTwo "o8" (.resolved respOk) false 0 stTwo prodTwo
    (by decide) (by decide)

/-! ### Claim C5 -/

/-- C5 counterexample: retryPayment on an order in PAYMENT_SUCCESS fails
with no side effects, but the error message is "Payment already
successful", which does not name the current status PAYMENT_SUCCESS (the
literal status string only appears in the fallback branch used for
statuses outside PENDING / PAYMENT_PROCESSING / PAYMENT_SUCCESS). -/
theorem c5_counterexample :
    (retryPayment "o1" (.resolved respOk) false 0 stSucc).1 =
      .error (.plainError "Cannot retry payment for order o1: Payment already successful") ∧
    (retryPayment "o1" (.resolved respOk) false 0 stSucc).2 = stSucc ∧
    strContains "Cannot retry payment for order o1: Payment already successful"
      "PAYMENT_SUCCESS" = false := by
  decide

/-- C5 (amended): retryPayment is legal only when the order's status is
PAYMENT_FAILED; for any other status it fails with a plain error carrying
the status-specific guard message (retryGuardMsg: "Payment already
successful" / "Payment is still being processed" / "Payment is currently
in progress", and "Invalid order status <status>" — the only branch
naming the literal status — for the remaining statuses), leaving the
entire state, order and stock included, unchanged. -/
theorem c5_retry_guard (orderId : String) (d : DispatchOutcome) (mid : Bool)
    (now : Nat) (st : SysState) (order : Order)
    (hfind : st.orders.find? (fun x => x.id == orderId) = some order)
    (hs : order.status ≠ .PAYMENT_FAILED) :
    retryPayment orderId d mid now st =
      (.error (.plainError (retryGuardMsg orderId order.status)), st) :=
  retryPayment_guard_eq hfind hs

/-- C5 witness: the amended theorem on a PENDING order. -/
theorem c5_retry_guard_witness :
    retryPayment "o1" (.resolved respOk) false 0 stPend =
      (.error (.plainError (retryGuardMsg "o1" OrderStatus.PENDING)), stPend) :=
  c5_retry_guard "o1" (.resolved respOk) false 0 stPend
    { orderFailed with status := .PENDING } (by decide) (by decide)

/-! ### Claim C6 -/

/-- C6 counterexample: the envelope with reason "Insufficient stock" and
attemptCount 1 within the window is retry-eligible under the claim's
predicate (the reason neither matches "Invalid*" nor equals "Insufficient
funds"), yet shouldRetryPayment rejects it — the code tests
`failureReason.includes("Insufficient")`, a substring check, not equality
with "Insufficient funds" — so the envelope is parked as permanent. -/
theorem c6_counterexample :
    specRetryEligible 0 msgIns = true ∧
    shouldRetryPayment 0 msgIns = false ∧
    consumeDLQStep 0 msgIns = .permanent := by
  decide

/-- C6 (amended): an envelope is scheduled for re-delivery — with its
attempt count incremented and lastAttemptAt refreshed — exactly when
attemptCount < 3, less than 1 hour has passed since firstAttemptAt, and
the failure reason contains neither "Invalid" nor "Insufficient" as a
substring; any envelope whose reason contains "Insufficient" — in
particular the exact reason "Insufficient funds" — is parked as permanent
regardless of attempt count. -/
theorem c6_retry_policy (now : Nat) (m : FailedPaymentMessage) :
    (consumeDLQStep now m =
        .scheduledRetry { m with attemptCount := m.attemptCount + 1, lastAttemptAt := now } ↔
      m.attemptCount < 3 ∧ now - m.firstAttemptAt < 3600000 ∧
      strContains m.failureReason "Invalid" = false ∧
      strContains m.failureReason "Insufficient" = false) ∧
    (strContains m.failureReason "Insufficient" = true →
      consumeDLQStep now m = .permanent) ∧
    (m.failureReason = "Insufficient funds" → consumeDLQStep now m = .permanent) := by
  have hb : shouldRetryPayment now m = true ↔
      (m.attemptCount < 3 ∧ now - m.firstAttemptAt < 3600000 ∧
       strContains m.failureReason "Invalid" = false ∧
       strContains m.failureReason "Insufficient" = false) := by
    unfold shouldRetryPayment
    simp [Bool.and_eq_true, Bool.not_eq_true', and_assoc]
  refine ⟨⟨?_, ?_⟩, ?_, ?_⟩
  · intro h
    apply hb.mp
    by_cases hs : shouldRetryPayment now m = true
    · exact hs
    · unfold consumeDLQStep at h
      rw [if_neg hs] at h
      exact absurd h (fun hc => DLQVerdict.noConfusion hc)
  · intro hprops
    unfold consumeDLQStep
    rw [if_pos (hb.mpr hprops)]
  · intro hins
    have hs : shouldRetryPayment now m = false := by
      unfold shouldRetryPayment
      simp [hins]
    unfold consumeDLQStep
    rw [if_neg (by simp [hs])]
  · intro heq
    have hins : strContains m.failureReason "Insufficient" = true := by
      rw [heq]
      decide
    have hs : shouldRetryPayment now m = false := by
      unfold shouldRetryPayment
      simp [hins]
    unfold consumeDLQStep
    rw [if_neg (by simp [hs])]

/-- C6 witness: "Insufficient funds" is parked permanently even on the
first attempt, while a transient transport reason within the window is
scheduled with its attempt count incremented. -/
theorem c6_retry_policy_witness :
    consumeDLQStep 0 msgFunds = DLQVerdict.permanent ∧
    consumeDLQStep 5 msgTransient =
      DLQVerdict.scheduledRetry { msgTransient with attemptCount := 2, lastAttemptAt := 5 } :=
  ⟨(c6_retry_policy 0 msgFunds).2.2 (by decide),
   (c6_retry_policy 5 msgTransient).1.mpr (by decide)⟩

/-! ### Claim C7 -/

/-- C7: reprocessDLQMessage is a no-op stub. The claim — manual reprocess
forces the envelope back into the eligible retry path — matches the
source's own inline comment ("Implementation would fetch from DLQ and
requeue to main queue"), but the body only logs: the dead-letter state,
including the retry queue, is returned unchanged for every order id, so no
envelope is ever requeued. -/
theorem c7_reprocess_is_noop (d : DLQState) (orderId : String) :
    reprocessDLQMessage d orderId = d ∧
    (reprocessDLQMessage d orderId).retryQueue = d.retryQueue ∧
    (reprocessDLQMessage d orderId).dlq = d.dlq :=
  ⟨rfl, rfl, rfl⟩

/-! ### Claim C8 -/

/-- C8: the circuit-breaker state machine (modelled from the spec, since
the machine itself lives in the third-party opossum package and only its
configuration is repository code): while OPEN every call is rejected
immediately — the dependency is not invoked and the breaker is unchanged —
and once the reset timeout has elapsed the breaker moves to HALF_OPEN;
in HALF_OPEN the single trial call does invoke the dependency and leaves
HALF_OPEN either way: a successful trial closes the breaker with both
counters reset, a failed trial reopens it, restarting the reset window
from the current time. -/
theorem c8_breaker_state_machine (b : Breaker) (now : Nat) (res : CallOutcome) :
    (b.state = .OPEN → breakerFire b now res = (false, b)) ∧
    (b.state = .OPEN → b.openedAt + b.resetTimeout ≤ now →
      (breakerTick b now).state = .HALF_OPEN) ∧
    (b.state = .HALF_OPEN →
      (breakerFire b now res).1 = true ∧ (breakerFire b now res).2.state ≠ .HALF_OPEN) ∧
    (b.state = .HALF_OPEN →
      breakerFire b now .success =
        (true, { b with state := .CLOSED, failures := 0, successes := 0 })) ∧
    (b.state = .HALF_OPEN →
      breakerFire b now .failure = (true, { b with state := .OPEN, openedAt := now })) := by
  refine ⟨?_, ?_, ?_, ?_, ?_⟩
  · intro h
    simp [breakerFire, h]
  · intro h1 h2
    unfold breakerTick
    rw [if_pos ⟨h1, h2⟩]
  · intro h
    cases res with
    | success => simp [breakerFire, h]
    | failure => simp [breakerFire, h]
  · intro h
    simp [breakerFire, h]
  · intro h
    simp [breakerFire, h]

/-- C8 witness: the state machine exercised on the payment-service breaker
configuration (resetTimeout 60000) at concrete states. -/
theorem c8_breaker_state_machine_witness :
    breakerFire (paymentServiceBreaker .OPEN 0) 100 .failure =
      (false, paymentServiceBreaker .OPEN 0) ∧
    (breakerTick (paymentServiceBreaker .OPEN 0) 60000).state = .HALF_OPEN ∧
    breakerFire (paymentServiceBreaker .HALF_OPEN 0) 5 .success =
      (true, { paymentServiceBreaker .HALF_OPEN 0 with
        state := .CLOSED, failures := 0, successes := 0 }) ∧
    breakerFire (paymentServiceBreaker .HALF_OPEN 0) 5 .failure =
      (true, { paymentServiceBreaker .HALF_OPEN 0 with state := .OPEN, openedAt := 5 }) :=
  ⟨(c8_breaker_state_machine (paymentServiceBreaker .OPEN 0) 100 .failure).1 rfl,
   (c8_breaker_state_machine (paymentServiceBreaker .OPEN 0) 60000 .failure).2.1 rfl (by decide),
   (c8_breaker_state_machine (paymentServiceBreaker .HALF_OPEN 0) 5 .success).2.2.2.1 rfl,
   (c8_breaker_state_machine (paymentServiceBreaker .HALF_OPEN 0) 5 .failure).2.2.2.2 rfl⟩

/-! ### Claim C9 -/

/-- C9: every stock operation resolves the product through
findByProductCode, whose where-clause requires `isActive: true`, so on a
store whose entries for the code are all inactive, findByProductCode,
validateAndGetProduct, decrementStock and incrementStock all fail with the
NotFound error; consequently a retryPayment whose product is deactivated
while the payment dispatch is in flight ends — after the dispatch fails —
with the compensating incrementStock throwing, the error caught and only
logged, the order saved as PAYMENT_FAILED, and the product store left at
the decremented (then deactivated) contents: the reserved quantity is
never restored. -/
theorem c9_inactive_product
    (repo : List Product) (code : String) (qty : Nat)
    (orderId : String) (resp : PaymentResponseDto) (now : Nat)
    (st : SysState) (order : Order) (p : Product)
    (hall : ∀ q ∈ repo, q.productCode = code → q.isActive = false)
    (hfind : st.orders.find? (fun x => x.id == orderId) = some order)
    (hst : order.status = .PAYMENT_FAILED)
    (hv : validateAndGetProduct st.products order.productCode = .ok p)
    (hq : ¬p.stockQuantity < order.quantity)
    (hr : resp.status = PayStatus.FAILED) :
    (findByProductCode repo code =
       .error (.notFound ("Product with code " ++ code ++ " not found or inactive")) ∧
     validateAndGetProduct repo code =
       .error (.notFound ("Product with code " ++ code ++ " not found or inactive")) ∧
     decrementStock repo code qty =
       .error (.notFound ("Product with code " ++ code ++ " not found or inactive")) ∧
     incrementStock repo code qty =
       .error (.notFound ("Product with code " ++ code ++ " not found or inactive"))) ∧
    retryPayment orderId (.resolved resp) true now st =
      (.ok { order with status := .PAYMENT_FAILED },
       { st with
           products := deactivateProduct
             (saveProduct st.products { p with stockQuantity := p.stockQuantity - order.quantity })
             order.productCode
           orders := saveOrder (saveOrder st.orders { order with status := .PAYMENT_PROCESSING })
             { order with status := .PAYMENT_FAILED } }) := by
  constructor
  · have hnone : repo.find? (activeMatch code) = none := by
      rw [List.find?_eq_none]
      intro x hx
      unfold activeMatch
      by_cases hc : x.productCode = code
      · simp [hc, hall x hx hc]
      · simp [hc]
    have hf : findByProductCode repo code =
        .error (.notFound ("Product with code " ++ code ++ " not found or inactive")) := by
      unfold findByProductCode
      rw [hnone]
    refine ⟨hf, ?_, ?_, ?_⟩
    · unfold validateAndGetProduct
      simp [hf]
    · unfold decrementStock
      simp [hf]
    · unfold incrementStock
      simp [hf]
  · exact retryPayment_deactivated_eq hfind hst hv hq hr

/-- C9 witness: the inactive product P3 rejects all four operations, and
the stA retry run with mid-flight deactivation ends PAYMENT_FAILED with
the stock still decremented; the stock ledger shows 3 of the original 5. -/
theorem c9_inactive_product_witness :
    ((findByProductCode [prodOff] "P3" =
       .error (.notFound ("Product with code " ++ "P3" ++ " not found or inactive")) ∧
     validateAndGetProduct [prodOff] "P3" =
       .error (.notFound ("Product with code " ++ "P3" ++ " not found or inactive")) ∧
     decrementStock [prodOff] "P3" 4 =
       .error (.notFound ("Product with code " ++ "P3" ++ " not found or inactive")) ∧
     incrementStock [prodOff] "P3" 4 =
       .error (.notFound ("Product with code " ++ "P3" ++ " not found or inactive"))) ∧
    retryPayment "o1" (.resolved respDecline) true 0 stA =
      (.ok { orderFailed with status := .PAYMENT_FAILED },
       { stA with
           products := deactivateProduct
             (saveProduct stA.products
               { prodA with stockQuantity := prodA.stockQuantity - orderFailed.quantity })
             orderFailed.productCode
           orders := saveOrder (saveOrder stA.orders { orderFailed with status := .PAYMENT_PROCESSING })
             { orderFailed with status := .PAYMENT_FAILED } })) ∧
    stockOf (retryPayment "o1" (.resolved respDecline) true 0 stA).2.products "P1" = 3 :=
  ⟨c9_inactive_product [prodOff] "P3" 4 "o1" respDecline 0 stA orderFailed prodA
     (by decide) (by decide) (by decide) (by decide) (by decide) (by decide),
   by decide⟩

/-! ### Claim C10 -/

/-- C10: every dead-letter envelope the saga coordinator submits from
createOrder — both the circuit-open branch and the transport-error branch
pass attemptCount 1 — is created fresh by sendToDeadLetterQueue with
attemptCount = 1 and firstAttemptAt = lastAttemptAt = the submission time,
so the 3-attempt / 1-hour budget that shouldRetryPayment evaluates starts
anew with each envelope and never accumulates across repeated failures of
the same order. -/
theorem c10_fresh_envelope (dto : CreateOrderDto) (fid msg : String)
    (now : Nat) (st : SysState) (p : Product)
    (hn : (st.products.map Product.id).Nodup)
    (hv : validateAndGetProduct st.products dto.productCode = .ok p)
    (hq : ¬p.stockQuantity < dto.quantity)
    (hch : st.dlqState.channelOk = true) :
    (createOrder dto fid (.thrown msg) false now st).2.dlqState.dlq =
      st.dlqState.dlq ++
        [{ orderId := fid, paymentRequest := coRequest dto fid p,
           failureReason := classifyThrown msg, attemptCount := 1,
           firstAttemptAt := now, lastAttemptAt := now }] := by
  rw [@createOrder_thrown_eq dto fid msg now st p hn hv hq]
  simp [sendToDeadLetterQueue, hch, coRequest]

/-- C10 witness: a circuit-open submission at time 7 produces exactly one
fresh envelope with attemptCount 1 and both timestamps 7. -/
theorem c10_fresh_envelope_witness :
    (createOrder dtoA "o2" (.thrown "Circuit breaker is open") false 7 stA).2.dlqState.dlq =
      stA.dlqState.dlq ++
        [{ orderId := "o2", paymentRequest := coRequest dtoA "o2" prodA,
           failureReason := classifyThrown "Circuit breaker is open", attemptCount := 1,
           firstAttemptAt := 7, lastAttemptAt := 7 }] :=
  c10_fresh_envelope dtoA "o2" "Circuit breaker is open" 7 stA prodA
    (by decide) (by decide) (by decide) (by decide)
